import Mathlib

/-!
Verification of `src/PartB_Automation/maps_route_instructions.py`.

The script drives a browser through a mapping site, extracts turn-by-turn
driving instructions, writes them to a spreadsheet and captures a
screenshot.  The embedding models:

* a page state as a function from locators to the list of matching
  elements, which is what `driver.find_elements` observes;
* the passage of time inside a `WebDriverWait` as a trace `Nat → Page`,
  one page state per poll tick, the timeout being the number of polls;
* the locator helpers `wait_for_any_element`,
  `wait_for_any_clickable_element`, `wait_for_any_elements` and
  `try_click_optional`, each with the exact candidate-scanning logic of
  its `_locate` callback;
* `save_instructions_to_excel` as the sheet value it appends row by row;
* the instruction-filtering loop of `main`, with Python's `str.strip`
  and `str.lower` embedded as `pyStrip` and `pyLower`;
* `main` as `main_try` (the body of the `try` block) together with
  `main_run` (the three `except` clauses selecting the exit code and the
  `finally` clause quitting the driver), driven by an environment `Env`
  that fixes the behaviour of every blocking browser interaction.
-/

namespace MapsScript

/-- A live page element as observed through the WebDriver API:
an identity, `is_displayed()`, `is_enabled()` and `.text`. -/
structure Element where
  eid : Nat
  displayed : Bool
  enabled : Bool
  text : String
deriving DecidableEq, Repr

/-- A locator candidate: a strategy plus a selector value, e.g.
`(By.CSS_SELECTOR, "button[data-value=\x27Directions\x27]")`. -/
structure Locator where
  strategy : String
  value : String
deriving DecidableEq, Repr

/-- The state of the page at one instant: what `driver.find_elements`
returns for each locator. -/
def Page : Type := Locator → List Element

/-- `drv.find_elements(*locator)` against one page state. -/
def find_elements (p : Page) (l : Locator) : List Element := p l

/-- The page as seen by successive polls of a `WebDriverWait`:
tick `t` is the page state observed by the `t`-th poll. -/
def Trace : Type := Nat → Page

/-- The exceptions relevant to the script: `TimeoutException`,
`WebDriverException`, and any other `Exception`. -/
inductive ScriptError where
  | timeout
  | webdriver (msg : String)
  | other (msg : String)
deriving DecidableEq, Repr

deriving instance DecidableEq for Except

/-- The polling loop of `WebDriverWait(driver, timeout).until(f)`:
at poll tick `tick` with `fuel` polls remaining, return the first truthy
value produced by the condition `f`, else raise `TimeoutException`. -/
def waitFrom {α : Type} (f : Page → Option α) (trace : Trace) : Nat → Nat → Except ScriptError α
  | 0, _ => Except.error ScriptError.timeout
  | fuel + 1, tick =>
    match f (trace tick) with
    | some a => Except.ok a
    | none => waitFrom f trace fuel (tick + 1)

/-- `WebDriverWait(driver, timeout).until(f)`: polls ticks `0 .. timeout - 1`. -/
def wait_until {α : Type} (f : Page → Option α) (trace : Trace) (timeout : Nat) :
    Except ScriptError α :=
  waitFrom f trace timeout 0

/-- The `_locate` callback of `wait_for_any_element`: scan the locators in
order and return the first element of the first non-empty match list. -/
def locate_any_element : List Locator → Page → Option Element
  | [], _ => none
  | locator :: rest, p =>
    match find_elements p locator with
    | [] => locate_any_element rest p
    | e :: _ => some e

/-- The inner loop of the `_locate` callback of
`wait_for_any_clickable_element`: the first element of the list that is
displayed and enabled. -/
def firstClickable : List Element → Option Element
  | [] => none
  | e :: es => if e.displayed && e.enabled then some e else firstClickable es

/-- The `_locate` callback of `wait_for_any_clickable_element`: scan the
locators in order and return the first matched element that is displayed
and enabled, skipping matched-but-unusable elements. -/
def locate_any_clickable : List Locator → Page → Option Element
  | [], _ => none
  | locator :: rest, p =>
    match firstClickable (find_elements p locator) with
    | some e => some e
    | none => locate_any_clickable rest p

/-- The `_locate` callback of `wait_for_any_elements`: the full
`find_elements` result of the first locator with any match. -/
def locate_any_elements : List Locator → Page → Option (List Element)
  | [], _ => none
  | locator :: rest, p =>
    match find_elements p locator with
    | [] => locate_any_elements rest p
    | e :: es => some (e :: es)

/-- `wait_for_any_element(driver, locators, timeout)`. -/
def wait_for_any_element (trace : Trace) (locators : List Locator) (timeout : Nat) :
    Except ScriptError Element :=
  wait_until (locate_any_element locators) trace timeout

/-- `wait_for_any_clickable_element(driver, locators, timeout)`. -/
def wait_for_any_clickable_element (trace : Trace) (locators : List Locator) (timeout : Nat) :
    Except ScriptError Element :=
  wait_until (locate_any_clickable locators) trace timeout

/-- `wait_for_any_elements(driver, locators, timeout)`. -/
def wait_for_any_elements (trace : Trace) (locators : List Locator) (timeout : Nat) :
    Except ScriptError (List Element) :=
  wait_until (locate_any_elements locators) trace timeout

/-- `try_click_optional(driver, locators, timeout)`: the returned boolean
together with the list of elements the call clicked.  The embedded wait
fails only with `ScriptError.timeout`, so catching every error here is
exactly the source's `except TimeoutException: return False`. -/
def try_click_optional (trace : Trace) (locators : List Locator) (timeout : Nat) :
    Bool × List Element :=
  match wait_for_any_clickable_element trace locators timeout with
  | Except.ok e => (true, [e])
  | Except.error _ => (false, [])

/-- A spreadsheet cell: `sheet.append` receives strings and integers. -/
inductive Cell where
  | str (s : String)
  | num (n : Nat)
deriving DecidableEq, Repr

/-- A single worksheet: its title and its rows in append order. -/
structure Sheet where
  title : String
  rows : List (List Cell)
deriving DecidableEq, Repr

/-- The rows appended by the loop
`for index, text in enumerate(instructions, start=1): sheet.append([index, text])`. -/
def instruction_rows (start : Nat) : List String → List (List Cell)
  | [] => []
  | text :: rest => [Cell.num start, Cell.str text] :: instruction_rows (start + 1) rest

/-- `save_instructions_to_excel(instructions, file_path)`: the sheet value
written to the workbook.  The file path plays no part in the contents. -/
def save_instructions_to_excel (instructions : List String) : Sheet :=
  { title := "Driving Instructions"
    rows := [Cell.str "Step Number", Cell.str "Instruction Text"] :: instruction_rows 1 instructions }

/-- Python's `str.lower` on the ASCII strings the script compares. -/
def pyLower (s : String) : String := String.mk (s.data.map Char.toLower)

/-- Python's `str.strip`: drop leading and trailing whitespace. -/
def pyStrip (s : String) : String :=
  String.mk (((s.data.dropWhile Char.isWhitespace).reverse.dropWhile Char.isWhitespace).reverse)

/-- The instruction-filtering loop of `main`: strip each step text, drop
it when empty or when its lowercase form is exactly a label from the set
of the two literals `directions` and `steps`, keep the stripped text
otherwise, preserving order. -/
def filter_step_texts : List String → List String
  | [] => []
  | raw :: rest =>
    let text := pyStrip raw
    if text = "" then filter_step_texts rest
    else if pyLower text = "directions" ∨ pyLower text = "steps" then filter_step_texts rest
    else text :: filter_step_texts rest

/-- `By.CSS_SELECTOR`. -/
def cssSelector : String := "css selector"

/-- `By.XPATH`. -/
def xpathStrategy : String := "xpath"

/-- The locator candidates for the optional consent dialog. -/
def consent_locators : List Locator :=
  [⟨cssSelector, "button[aria-label=\x27Accept all\x27]"⟩,
   ⟨cssSelector, "button[aria-label=\x27I agree\x27]"⟩]

/-- The locator candidates for the Directions button. -/
def directions_locators : List Locator :=
  [⟨cssSelector, "button[data-value=\x27Directions\x27]"⟩,
   ⟨cssSelector, "button[aria-label=\x27Directions\x27]"⟩,
   ⟨xpathStrategy, "//button[@data-value=\x27Directions\x27]"⟩]

/-- The locator candidates for the starting-point input. -/
def start_input_locators : List Locator :=
  [⟨cssSelector, "input[aria-label^=\x27Choose starting point\x27]"⟩,
   ⟨cssSelector, "input[aria-label^=\x27Starting point\x27]"⟩,
   ⟨cssSelector, "input.tactile-searchbox-input[aria-label*=\x27starting\x27]"⟩,
   ⟨cssSelector, "input.tactile-searchbox-input"⟩]

/-- The locator candidates for the destination input. -/
def destination_input_locators : List Locator :=
  [⟨cssSelector, "input[aria-label^=\x27Choose destination\x27]"⟩,
   ⟨cssSelector, "input[aria-label^=\x27Destination\x27]"⟩,
   ⟨cssSelector, "input.tactile-searchbox-input[aria-label*=\x27destination\x27]"⟩,
   ⟨cssSelector, "input.tactile-searchbox-input"⟩]

/-- The single locator candidate for route cards. -/
def route_card_locators : List Locator :=
  [⟨cssSelector, "div[data-trip-index]"⟩]

/-- The locator candidates for the optional steps/details toggle. -/
def steps_toggle_locators : List Locator :=
  [⟨cssSelector, "button[data-value=\x27Steps\x27]"⟩,
   ⟨cssSelector, "button[aria-label=\x27Steps\x27]"⟩,
   ⟨cssSelector, "button[data-value=\x27Details\x27]"⟩,
   ⟨cssSelector, "button[aria-label=\x27Details\x27]"⟩]

/-- The locator for turn-by-turn step elements. -/
def step_locator : Locator := ⟨cssSelector, "div[data-step-index]"⟩

/-- `EC.presence_of_all_elements_located(locator)`: truthy exactly when at
least one element matches. -/
def presence_of_all_elements (locator : Locator) (p : Page) : Option (List Element) :=
  match find_elements p locator with
  | [] => none
  | e :: es => some (e :: es)

/-- `wait.until(EC.url_contains("/dir/"))` against the 30-unit wait:
succeeds or times out according to whether the URL ever shows `/dir/`
within that wait. -/
def url_contains_dir (ok : Bool) : Except ScriptError Unit :=
  if ok then Except.ok () else Except.error ScriptError.timeout

/-- The behaviour of the outside world during one run of `main`: whether
starting Chrome raises `WebDriverException`, the poll-by-poll page states
seen by each blocking wait, whether the URL comes to contain `/dir/`, and
whether `workbook.save` raises. -/
structure Env where
  chromeFails : Bool
  consentTrace : Trace
  directionsTrace : Trace
  startTrace : Trace
  destTrace : Trace
  urlHasDir : Bool
  routeTrace : Trace
  stepsToggleTrace : Trace
  stepTrace : Trace
  excelSaveFails : Bool

/-- The message of the guard `raise Exception(...)` after the route-card
wait in `main`. -/
def routes_not_found_msg : String := "No routes were found for the provided locations."

/-- Stand-in message for an exception raised inside `workbook.save`. -/
def excel_save_failed_msg : String := "failed to save workbook"

/-- The body of the `try` block of `main`: the orchestration steps, ending
in the sheet value written to the spreadsheet file.  An error is an
exception escaping to the handlers of `main`.  Clicks, keystrokes and
`driver.get` neither change the modelled state nor fail here; the
re-query of step elements after the 60-unit presence wait is modelled at
the page instant at which that wait fired. -/
def main_try (env : Env) : Except ScriptError Sheet :=
  if env.chromeFails then Except.error (ScriptError.webdriver "chrome session failed") else
  let _consent := try_click_optional env.consentTrace consent_locators 5
  match wait_for_any_clickable_element env.directionsTrace directions_locators 25 with
  | Except.error e => Except.error e
  | Except.ok _directionsButton =>
    match wait_for_any_element env.startTrace start_input_locators 25 with
    | Except.error e => Except.error e
    | Except.ok _startInput =>
      match wait_for_any_element env.destTrace destination_input_locators 25 with
      | Except.error e => Except.error e
      | Except.ok _destinationInput =>
        match url_contains_dir env.urlHasDir with
        | Except.error e => Except.error e
        | Except.ok _ =>
          match wait_for_any_elements env.routeTrace route_card_locators 30 with
          | Except.error e => Except.error e
          | Except.ok route_cards =>
            if route_cards.isEmpty then Except.error (ScriptError.other routes_not_found_msg)
            else
              let _stepsToggle := try_click_optional env.stepsToggleTrace steps_toggle_locators 5
              let step_elements :=
                match wait_until (presence_of_all_elements step_locator) env.stepTrace 60 with
                | Except.ok es => es
                | Except.error _ => []
              let instructions := filter_step_texts (step_elements.map Element.text)
              if env.excelSaveFails then Except.error (ScriptError.other excel_save_failed_msg)
              else Except.ok (save_instructions_to_excel instructions)

/-- The observable outcome of one run of `main`. -/
structure MainResult where
  exitCode : Nat
  excel : Option Sheet
  screenshot : Bool
  driverCreated : Bool
  driverQuit : Bool
deriving DecidableEq, Repr

/-- `main()`: the `try` body, the three `except` clauses by decreasing
specificity selecting the exit code, and the `finally` clause quitting
the driver exactly when one was created.  The spreadsheet and the
screenshot are written only on the success path: every modelled error
occurs before `workbook.save`, or is the failure of `workbook.save`
itself, and the screenshot is the last step before `return 0`. -/
def main_run (env : Env) : MainResult :=
  let body := main_try env
  { exitCode :=
      match body with
      | Except.ok _ => 0
      | Except.error ScriptError.timeout => 1
      | Except.error (ScriptError.webdriver _) => 1
      | Except.error (ScriptError.other _) => 1
    excel :=
      match body with
      | Except.ok sheet => some sheet
      | Except.error _ => none
    screenshot :=
      match body with
      | Except.ok _ => true
      | Except.error _ => false
    driverCreated := !env.chromeFails
    driverQuit := !env.chromeFails }

/-- Test fixture: a displayed and enabled element. -/
def okButton : Element := ⟨1, true, true, "OK"⟩

/-- Test fixture: a second displayed and enabled element. -/
def stepOne : Element := ⟨2, true, true, "Turn left"⟩

/-- Test fixture: an element that is displayed but not enabled. -/
def disabledButton : Element := ⟨3, true, false, "ghost"⟩

/-- Test fixture: a locator that will match nothing on `pageB`. -/
def locA : Locator := ⟨cssSelector, "a"⟩

/-- Test fixture: the locator that matches on `pageB`. -/
def locB : Locator := ⟨cssSelector, "b"⟩

/-- Test fixture: a page on which only `locB` matches, with two elements. -/
def pageB : Page := fun l => if l = locB then [okButton, stepOne] else []

/-- Test fixture: a page on which every locator matches only an element
that is not enabled. -/
def pageDisabled : Page := fun _ => [disabledButton]

/-- Test fixture: a page on which every locator matches `okButton`. -/
def pageAll : Page := fun _ => [okButton]

/-- Test fixture: a page with no matches at all. -/
def pageEmpty : Page := fun _ => []

/-- Test fixture: a trace that always shows `pageAll`. -/
def traceAll : Trace := fun _ => pageAll

/-- Test fixture: a trace that always shows `pageEmpty`. -/
def traceEmpty : Trace := fun _ => pageEmpty

/-- Test fixture: an environment in which the page never shows any
element, so the directions wait times out. -/
def envBlank : Env :=
  { chromeFails := false
    consentTrace := traceEmpty
    directionsTrace := traceEmpty
    startTrace := traceEmpty
    destTrace := traceEmpty
    urlHasDir := false
    routeTrace := traceEmpty
    stepsToggleTrace := traceEmpty
    stepTrace := traceEmpty
    excelSaveFails := false }

/-- Test fixture: an environment in which every interaction succeeds but
the step elements never appear. -/
def envNoSteps : Env :=
  { chromeFails := false
    consentTrace := traceAll
    directionsTrace := traceAll
    startTrace := traceAll
    destTrace := traceAll
    urlHasDir := true
    routeTrace := traceAll
    stepsToggleTrace := traceAll
    stepTrace := traceEmpty
    excelSaveFails := false }

/-- Test fixture: an environment in which every interaction up to the
route-card wait succeeds, but no route card ever appears. -/
def envNoRoutes : Env :=
  { envNoSteps with routeTrace := traceEmpty }

theorem waitFrom_timeout {α : Type} (f : Page → Option α) (trace : Trace) :
    ∀ fuel tick, (∀ s, s < fuel → f (trace (tick + s)) = none) →
      waitFrom f trace fuel tick = Except.error ScriptError.timeout := by
  intro fuel
  induction fuel with
  | zero => intro tick _; rfl
  | succ n ih =>
    intro tick h
    have h0 : f (trace tick) = none := by simpa using h 0 (Nat.succ_pos n)
    have hrest : ∀ s, s < n → f (trace (tick + 1 + s)) = none := by
      intro s hs
      have hh := h (s + 1) (by omega)
      have heq : tick + (s + 1) = tick + 1 + s := by omega
      rwa [heq] at hh
    simp [waitFrom, h0, ih (tick + 1) hrest]

theorem waitFrom_fire {α : Type} (f : Page → Option α) (trace : Trace) (v : α) :
    ∀ t fuel tick, t < fuel → (∀ s, s < t → f (trace (tick + s)) = none) →
      f (trace (tick + t)) = some v →
      waitFrom f trace fuel tick = Except.ok v := by
  intro t
  induction t with
  | zero =>
    intro fuel tick hlt _ hfire
    cases fuel with
    | zero => omega
    | succ n =>
      have h0 : f (trace tick) = some v := by simpa using hfire
      simp [waitFrom, h0]
  | succ t ih =>
    intro fuel tick hlt hnone hfire
    cases fuel with
    | zero => omega
    | succ n =>
      have h0 : f (trace tick) = none := by simpa using hnone 0 (Nat.succ_pos t)
      have hnone' : ∀ s, s < t → f (trace (tick + 1 + s)) = none := by
        intro s hs
        have hh := hnone (s + 1) (by omega)
        have heq : tick + (s + 1) = tick + 1 + s := by omega
        rwa [heq] at hh
      have hfire' : f (trace (tick + 1 + t)) = some v := by
        have heq : tick + (t + 1) = tick + 1 + t := by omega
        rwa [heq] at hfire
      simp [waitFrom, h0, ih n (tick + 1) (by omega) hnone' hfire']

theorem waitFrom_ok_exists {α : Type} (f : Page → Option α) (trace : Trace) (v : α) :
    ∀ fuel tick, waitFrom f trace fuel tick = Except.ok v →
      ∃ t, f (trace t) = some v := by
  intro fuel
  induction fuel with
  | zero => intro tick h; exact absurd h (by simp [waitFrom])
  | succ n ih =>
    intro tick h
    rw [waitFrom] at h
    cases hf : f (trace tick) with
    | some a =>
      rw [hf] at h
      simp only [Except.ok.injEq] at h
      exact ⟨tick, by rw [hf, h]⟩
    | none =>
      rw [hf] at h
      exact ih (tick + 1) h

theorem wait_until_timeout {α : Type} (f : Page → Option α) (trace : Trace) (timeout : Nat)
    (h : ∀ t, t < timeout → f (trace t) = none) :
    wait_until f trace timeout = Except.error ScriptError.timeout :=
  waitFrom_timeout f trace timeout 0 (fun s hs => by simpa using h s hs)

theorem wait_until_fire {α : Type} (f : Page → Option α) (trace : Trace) (timeout t : Nat)
    (v : α) (ht : t < timeout) (hnone : ∀ s, s < t → f (trace s) = none)
    (hfire : f (trace t) = some v) :
    wait_until f trace timeout = Except.ok v :=
  waitFrom_fire f trace v t timeout 0 ht (fun s hs => by simpa using hnone s hs)
    (by simpa using hfire)

theorem wait_until_ok_exists {α : Type} (f : Page → Option α) (trace : Trace) (timeout : Nat)
    (v : α) (h : wait_until f trace timeout = Except.ok v) :
    ∃ t, f (trace t) = some v :=
  waitFrom_ok_exists f trace v timeout 0 h

theorem locate_any_element_none (p : Page) :
    ∀ locators : List Locator, (∀ l ∈ locators, find_elements p l = []) →
      locate_any_element locators p = none := by
  intro locators
  induction locators with
  | nil => intro _; rfl
  | cons a rest ih =>
    intro h
    have ha : find_elements p a = [] := h a (List.mem_cons_self a rest)
    have hrest := ih (fun l hl => h l (List.mem_cons_of_mem a hl))
    simp [locate_any_element, ha, hrest]

theorem locate_any_elements_none (p : Page) :
    ∀ locators : List Locator, (∀ l ∈ locators, find_elements p l = []) →
      locate_any_elements locators p = none := by
  intro locators
  induction locators with
  | nil => intro _; rfl
  | cons a rest ih =>
    intro h
    have ha : find_elements p a = [] := h a (List.mem_cons_self a rest)
    have hrest := ih (fun l hl => h l (List.mem_cons_of_mem a hl))
    simp [locate_any_elements, ha, hrest]

theorem locate_any_element_append (p : Page) :
    ∀ pre rest : List Locator, (∀ l ∈ pre, find_elements p l = []) →
      locate_any_element (pre ++ rest) p = locate_any_element rest p := by
  intro pre
  induction pre with
  | nil => intro rest _; rfl
  | cons a pre ih =>
    intro rest h
    have ha : find_elements p a = [] := h a (List.mem_cons_self a pre)
    have hrest := ih rest (fun l hl => h l (List.mem_cons_of_mem a hl))
    simp [locate_any_element, ha, hrest]

theorem locate_any_elements_append (p : Page) :
    ∀ pre rest : List Locator, (∀ l ∈ pre, find_elements p l = []) →
      locate_any_elements (pre ++ rest) p = locate_any_elements rest p := by
  intro pre
  induction pre with
  | nil => intro rest _; rfl
  | cons a pre ih =>
    intro rest h
    have ha : find_elements p a = [] := h a (List.mem_cons_self a pre)
    have hrest := ih rest (fun l hl => h l (List.mem_cons_of_mem a hl))
    simp [locate_any_elements, ha, hrest]

theorem locate_any_element_cons_found (p : Page) (loc : Locator) (post : List Locator)
    (hm : find_elements p loc ≠ []) :
    locate_any_element (loc :: post) p = some ((find_elements p loc).head hm) := by
  revert hm
  cases hf : find_elements p loc with
  | nil => intro hm; exact absurd rfl hm
  | cons e es => intro hm; simp [locate_any_element, hf]

theorem locate_any_elements_cons_found (p : Page) (loc : Locator) (post : List Locator)
    (hm : find_elements p loc ≠ []) :
    locate_any_elements (loc :: post) p = some (find_elements p loc) := by
  cases hf : find_elements p loc with
  | nil => exact absurd hf hm
  | cons e es => simp [locate_any_elements, hf]

theorem firstClickable_some :
    ∀ (es : List Element) (e : Element), firstClickable es = some e →
      e.displayed = true ∧ e.enabled = true := by
  intro es
  induction es with
  | nil => intro e h; exact absurd h (by simp [firstClickable])
  | cons a rest ih =>
    intro e h
    simp only [firstClickable] at h
    by_cases hb : (a.displayed && a.enabled) = true
    · rw [if_pos hb] at h
      cases h
      simpa [Bool.and_eq_true] using hb
    · rw [if_neg hb] at h
      exact ih e h

theorem firstClickable_none :
    ∀ es : List Element, (∀ e ∈ es, ¬(e.displayed = true ∧ e.enabled = true)) →
      firstClickable es = none := by
  intro es
  induction es with
  | nil => intro _; rfl
  | cons a rest ih =>
    intro h
    have ha := h a (List.mem_cons_self a rest)
    have hb : (a.displayed && a.enabled) = false := by
      cases hd : a.displayed <;> cases hen : a.enabled <;> simp_all
    simp [firstClickable, hb, ih (fun x hx => h x (List.mem_cons_of_mem a hx))]

theorem locate_any_clickable_some (p : Page) :
    ∀ (locators : List Locator) (e : Element),
      locate_any_clickable locators p = some e →
      e.displayed = true ∧ e.enabled = true := by
  intro locators
  induction locators with
  | nil => intro e h; exact absurd h (by simp [locate_any_clickable])
  | cons a rest ih =>
    intro e h
    simp only [locate_any_clickable] at h
    cases hf : firstClickable (find_elements p a) with
    | some x =>
      rw [hf] at h
      simp only [Option.some.injEq] at h
      exact h ▸ firstClickable_some _ _ hf
    | none =>
      rw [hf] at h
      exact ih e h

theorem locate_any_clickable_none (p : Page) :
    ∀ locators : List Locator,
      (∀ l ∈ locators, ∀ e ∈ find_elements p l, ¬(e.displayed = true ∧ e.enabled = true)) →
      locate_any_clickable locators p = none := by
  intro locators
  induction locators with
  | nil => intro _; rfl
  | cons a rest ih =>
    intro h
    have ha : firstClickable (find_elements p a) = none :=
      firstClickable_none _ (fun e he => h a (List.mem_cons_self a rest) e he)
    simp [locate_any_clickable, ha, ih (fun l hl => h l (List.mem_cons_of_mem a hl))]

theorem locate_any_elements_some_ne_nil (p : Page) :
    ∀ (locators : List Locator) (es : List Element),
      locate_any_elements locators p = some es → es ≠ [] := by
  intro locators
  induction locators with
  | nil => intro es h; exact absurd h (by simp [locate_any_elements])
  | cons a rest ih =>
    intro es h
    simp only [locate_any_elements] at h
    cases hf : find_elements p a with
    | nil =>
      rw [hf] at h
      exact ih es h
    | cons e es0 =>
      rw [hf] at h
      simp only [Option.some.injEq] at h
      simp [← h]

theorem wait_for_any_elements_ok_ne_nil (trace : Trace) (locators : List Locator)
    (timeout : Nat) (es : List Element)
    (h : wait_for_any_elements trace locators timeout = Except.ok es) : es ≠ [] := by
  obtain ⟨t, ht⟩ := wait_until_ok_exists _ _ _ _ h
  exact locate_any_elements_some_ne_nil _ _ _ ht

theorem instruction_rows_length (instructions : List String) :
    ∀ start, (instruction_rows start instructions).length = instructions.length := by
  induction instructions with
  | nil => intro start; rfl
  | cons t rest ih => intro start; simp [instruction_rows, ih]

theorem instruction_rows_getElem? :
    ∀ (instructions : List String) (start i : Nat) (hi : i < instructions.length),
      (instruction_rows start instructions)[i]?
        = some [Cell.num (start + i), Cell.str (instructions.get ⟨i, hi⟩)] := by
  intro instructions
  induction instructions with
  | nil => intro start i hi; exact absurd hi (by simp)
  | cons t rest ih =>
    intro start i hi
    cases i with
    | zero => simp [instruction_rows]
    | succ i =>
      have hi' : i < rest.length := by simpa using hi
      have h := ih (start + 1) i hi'
      have heq : start + 1 + i = start + (i + 1) := by omega
      rw [heq] at h
      simpa [instruction_rows] using h

/-- C1: for every non-empty candidate list in which the candidate at
position `pre.length` is the first with at least one matching element,
the non-clickable resolvers draw their result only from that candidate's
match set: `wait_for_any_element` returns its first matched element and
`wait_for_any_elements` returns exactly its matched elements in order,
never merging in matches from later candidates; and both fail with a
timeout when no candidate ever matches within the timeout. -/
theorem C1_first_matching_candidate_wins :
    (∀ (pre post : List Locator) (loc : Locator) (page : Page),
        (∀ l ∈ pre, find_elements page l = []) →
        ∀ hm : find_elements page loc ≠ [],
        ∀ (trace : Trace) (timeout t : Nat), t < timeout →
        (∀ s, s < t → ∀ l ∈ pre ++ loc :: post, find_elements (trace s) l = []) →
        trace t = page →
        wait_for_any_element trace (pre ++ loc :: post) timeout
            = Except.ok ((find_elements page loc).head hm)
          ∧ wait_for_any_elements trace (pre ++ loc :: post) timeout
            = Except.ok (find_elements page loc))
    ∧ (∀ (locators : List Locator) (trace : Trace) (timeout : Nat),
        (∀ u, u < timeout → ∀ l ∈ locators, find_elements (trace u) l = []) →
        wait_for_any_element trace locators timeout = Except.error ScriptError.timeout
          ∧ wait_for_any_elements trace locators timeout
            = Except.error ScriptError.timeout) := by
  constructor
  · intro pre post loc page hpre hm trace timeout t ht hnone htrace
    have hfire1 : locate_any_element (pre ++ loc :: post) (trace t)
        = some ((find_elements page loc).head hm) := by
      rw [htrace, locate_any_element_append page pre (loc :: post) hpre]
      exact locate_any_element_cons_found page loc post hm
    have hfire2 : locate_any_elements (pre ++ loc :: post) (trace t)
        = some (find_elements page loc) := by
      rw [htrace, locate_any_elements_append page pre (loc :: post) hpre]
      exact locate_any_elements_cons_found page loc post hm
    constructor
    · exact wait_until_fire _ trace timeout t _ ht
        (fun s hs => locate_any_element_none _ _ (fun l hl => hnone s hs l hl)) hfire1
    · exact wait_until_fire _ trace timeout t _ ht
        (fun s hs => locate_any_elements_none _ _ (fun l hl => hnone s hs l hl)) hfire2
  · intro locators trace timeout h
    constructor
    · exact wait_until_timeout _ trace timeout
        (fun u hu => locate_any_element_none _ _ (fun l hl => h u hu l hl))
    · exact wait_until_timeout _ trace timeout
        (fun u hu => locate_any_elements_none _ _ (fun l hl => h u hu l hl))

/-- Witness for C1: with candidates `[locA, locB]` on a page where only
`locB` matches, the locate-first resolver returns the first of `locB`'s
matches and the locate-all resolver returns exactly `locB`'s matches. -/
theorem C1_first_matching_candidate_wins_witness :
    wait_for_any_element (fun _ => pageB) [locA, locB] 5 = Except.ok okButton
      ∧ wait_for_any_elements (fun _ => pageB) [locA, locB] 5
        = Except.ok [okButton, stepOne] :=
  C1_first_matching_candidate_wins.1 [locA] [] locB pageB
    (by decide) (by decide) (fun _ => pageB) 5 0 (by decide) (by decide) rfl

/-- C2: `wait_for_any_clickable_element` returns an element only if that
element is displayed and enabled, and if no candidate ever yields a
displayed-and-enabled element within the timeout it fails with a timeout
rather than returning an unusable element. -/
theorem C2_clickable_resolution :
    (∀ (trace : Trace) (locators : List Locator) (timeout : Nat) (e : Element),
        wait_for_any_clickable_element trace locators timeout = Except.ok e →
        e.displayed = true ∧ e.enabled = true)
    ∧ (∀ (trace : Trace) (locators : List Locator) (timeout : Nat),
        (∀ t, t < timeout → ∀ l ∈ locators, ∀ e ∈ find_elements (trace t) l,
            ¬(e.displayed = true ∧ e.enabled = true)) →
        wait_for_any_clickable_element trace locators timeout
          = Except.error ScriptError.timeout) := by
  constructor
  · intro trace locators timeout e h
    obtain ⟨t, ht⟩ := wait_until_ok_exists _ _ _ _ h
    exact locate_any_clickable_some _ _ _ ht
  · intro trace locators timeout h
    exact wait_until_timeout _ trace timeout
      (fun t htl => locate_any_clickable_none _ _ (fun l hl e he => h t htl l hl e he))

/-- Witness for C2: a page whose only matched element is not enabled makes
the clickable wait time out, and a successful clickable wait has returned
a displayed and enabled element. -/
theorem C2_clickable_resolution_witness :
    (okButton.displayed = true ∧ okButton.enabled = true)
      ∧ wait_for_any_clickable_element (fun _ => pageDisabled) [locA] 5
        = Except.error ScriptError.timeout :=
  ⟨C2_clickable_resolution.1 (fun _ => pageB) [locB] 5 okButton (by decide),
   C2_clickable_resolution.2 (fun _ => pageDisabled) [locA] 5 (by decide)⟩

/-- C3: `try_click_optional` converts a timeout of the underlying
clickable wait into the value `false` with no click issued, and returns
`true` exactly when a click was issued on the resolved element. -/
theorem C3_try_click_optional_result :
    ∀ (trace : Trace) (locators : List Locator) (timeout : Nat),
      (wait_for_any_clickable_element trace locators timeout
          = Except.error ScriptError.timeout →
        try_click_optional trace locators timeout = (false, []))
      ∧ (∀ e, wait_for_any_clickable_element trace locators timeout = Except.ok e →
        try_click_optional trace locators timeout = (true, [e]))
      ∧ ((try_click_optional trace locators timeout).1 = true
          ↔ (try_click_optional trace locators timeout).2 ≠ []) := by
  intro trace locators timeout
  refine ⟨?_, ?_, ?_⟩
  · intro h
    simp [try_click_optional, h]
  · intro e h
    simp [try_click_optional, h]
  · unfold try_click_optional
    cases h : wait_for_any_clickable_element trace locators timeout with
    | ok e => simp
    | error err => simp

/-- Witness for C3: the timeout of the clickable wait becomes `false`,
and a resolved element becomes `true` with that element clicked. -/
theorem C3_try_click_optional_result_witness :
    try_click_optional (fun _ => pageDisabled) [locA] 5 = (false, [])
      ∧ try_click_optional (fun _ => pageB) [locB] 5 = (true, [okButton]) :=
  ⟨(C3_try_click_optional_result (fun _ => pageDisabled) [locA] 5).1 (by decide),
   (C3_try_click_optional_result (fun _ => pageB) [locB] 5).2.1 okButton (by decide)⟩

/-- C4: the instruction-filtering step maps the raw step texts to the
order-preserving subsequence of their stripped forms that are non-empty
and whose lowercased form is neither `directions` nor `steps`; on the
spec's concrete input it captures exactly the two real instructions. -/
theorem C4_instruction_filtering :
    (∀ stepTexts : List String,
        filter_step_texts stepTexts
          = (stepTexts.map pyStrip).filter
              (fun t => !(t == "" || pyLower t == "directions" || pyLower t == "steps")))
    ∧ filter_step_texts ["", "  ", "Directions", "Turn left", "steps", "Continue straight"]
        = ["Turn left", "Continue straight"] := by
  constructor
  · intro stepTexts
    induction stepTexts with
    | nil => rfl
    | cons raw rest ih =>
      simp only [filter_step_texts, List.map_cons, List.filter_cons]
      by_cases h1 : pyStrip raw = ""
      · simp [h1, ih]
      · by_cases h2 : pyLower (pyStrip raw) = "directions"
        · simp [h1, h2, ih]
        · by_cases h3 : pyLower (pyStrip raw) = "steps"
          · simp [h1, h2, h3, ih]
          · simp [h1, h2, h3, ih]
  · decide

/-- C5: the exported sheet has the header as its first row followed by
exactly one row `(i, text_i)` per instruction, numbered from 1 in input
order; on `["A", "B"]` the sheet is exactly header, `(1, "A")`, `(2, "B")`. -/
theorem C5_excel_sheet_layout :
    ∀ instructions : List String,
      ((save_instructions_to_excel instructions).rows.length = instructions.length + 1)
      ∧ ((save_instructions_to_excel instructions).rows[0]?
          = some [Cell.str "Step Number", Cell.str "Instruction Text"])
      ∧ (∀ i, ∀ hi : i < instructions.length,
          (save_instructions_to_excel instructions).rows[i + 1]?
            = some [Cell.num (i + 1), Cell.str (instructions.get ⟨i, hi⟩)])
      ∧ save_instructions_to_excel ["A", "B"]
          = { title := "Driving Instructions"
              rows := [[Cell.str "Step Number", Cell.str "Instruction Text"],
                       [Cell.num 1, Cell.str "A"], [Cell.num 2, Cell.str "B"]] } := by
  intro instructions
  refine ⟨?_, ?_, ?_, by decide⟩
  · simp [save_instructions_to_excel, instruction_rows_length]
  · simp [save_instructions_to_excel]
  · intro i hi
    have h := instruction_rows_getElem? instructions 1 i hi
    rw [Nat.add_comm 1 i] at h
    simpa [save_instructions_to_excel] using h

/-- Witness for C5: on input `["A", "B"]`, the row after the header is
`(1, "A")`. -/
theorem C5_excel_sheet_layout_witness :
    (save_instructions_to_excel ["A", "B"]).rows[1]? = some [Cell.num 1, Cell.str "A"] :=
  (C5_excel_sheet_layout ["A", "B"]).2.2.1 0 (by decide)

theorem waitFrom_error_eq_timeout {α : Type} (f : Page → Option α) (trace : Trace) :
    ∀ fuel tick err, waitFrom f trace fuel tick = Except.error err →
      err = ScriptError.timeout := by
  intro fuel
  induction fuel with
  | zero =>
    intro tick err h
    rw [waitFrom] at h
    cases h
    rfl
  | succ n ih =>
    intro tick err h
    rw [waitFrom] at h
    cases hf : f (trace tick) with
    | some a =>
      rw [hf] at h
      exact absurd h (by simp)
    | none =>
      rw [hf] at h
      exact ih (tick + 1) err h

theorem wait_for_any_element_error (trace : Trace) (locators : List Locator)
    (timeout : Nat) (err : ScriptError)
    (h : wait_for_any_element trace locators timeout = Except.error err) :
    err = ScriptError.timeout :=
  waitFrom_error_eq_timeout (locate_any_element locators) trace timeout 0 err h

theorem wait_for_any_clickable_element_error (trace : Trace) (locators : List Locator)
    (timeout : Nat) (err : ScriptError)
    (h : wait_for_any_clickable_element trace locators timeout = Except.error err) :
    err = ScriptError.timeout :=
  waitFrom_error_eq_timeout (locate_any_clickable locators) trace timeout 0 err h

theorem wait_for_any_elements_error (trace : Trace) (locators : List Locator)
    (timeout : Nat) (err : ScriptError)
    (h : wait_for_any_elements trace locators timeout = Except.error err) :
    err = ScriptError.timeout :=
  waitFrom_error_eq_timeout (locate_any_elements locators) trace timeout 0 err h

theorem url_contains_dir_error (ok : Bool) (err : ScriptError)
    (h : url_contains_dir ok = Except.error err) : err = ScriptError.timeout := by
  cases ok with
  | true => exact absurd h (by simp [url_contains_dir])
  | false =>
    rw [url_contains_dir] at h
    cases h
    rfl

theorem isEmpty_false_of_ne_nil {α : Type} {l : List α} (h : l ≠ []) :
    l.isEmpty = false := by
  cases l with
  | nil => exact absurd rfl h
  | cons a t => rfl

/-- C6: the exit code of `main` is 0 exactly when the try body completes
(also with zero captured instructions) and 1 whenever a timeout, a
driver-level error or any other exception reaches the top level; no
other exit code is produced. -/
theorem C6_exit_codes :
    ∀ env : Env,
      ((main_run env).exitCode = 0 ∨ (main_run env).exitCode = 1)
      ∧ (∀ sheet, main_try env = Except.ok sheet → (main_run env).exitCode = 0)
      ∧ (∀ err, main_try env = Except.error err → (main_run env).exitCode = 1) := by
  intro env
  refine ⟨?_, ?_, ?_⟩
  · cases h : main_try env with
    | ok s =>
      left
      simp [main_run, h]
    | error e =>
      right
      cases e <;> simp [main_run, h]
  · intro sheet h
    simp [main_run, h]
  · intro err h
    cases err <;> simp [main_run, h]

/-- Witness for C6: in an environment in which no element ever appears,
the directions wait times out and the exit code is 1. -/
theorem C6_exit_codes_witness : (main_run envBlank).exitCode = 1 :=
  (C6_exit_codes envBlank).2.2 ScriptError.timeout (by decide)

/-- C7: when every interaction through route selection succeeds but the
step elements never appear within the 60-unit wait, that timeout is
swallowed: the run exits 0, writes a sheet holding only the header row,
and writes the screenshot. -/
theorem C7_step_timeout_swallowed :
    ∀ (env : Env) (d si di : Element) (cards : List Element),
      env.chromeFails = false →
      wait_for_any_clickable_element env.directionsTrace directions_locators 25
        = Except.ok d →
      wait_for_any_element env.startTrace start_input_locators 25 = Except.ok si →
      wait_for_any_element env.destTrace destination_input_locators 25 = Except.ok di →
      env.urlHasDir = true →
      wait_for_any_elements env.routeTrace route_card_locators 30 = Except.ok cards →
      (∀ t, t < 60 → find_elements (env.stepTrace t) step_locator = []) →
      env.excelSaveFails = false →
      (main_run env).exitCode = 0
        ∧ (main_run env).excel
            = some { title := "Driving Instructions"
                     rows := [[Cell.str "Step Number", Cell.str "Instruction Text"]] }
        ∧ (main_run env).screenshot = true := by
  intro env d si di cards hchrome hdir hstart hdest hurl hroute hsteps hexcel
  have hcardsb : cards.isEmpty = false :=
    isEmpty_false_of_ne_nil (wait_for_any_elements_ok_ne_nil _ _ _ _ hroute)
  have hstepwait : wait_until (presence_of_all_elements step_locator) env.stepTrace 60
      = Except.error ScriptError.timeout := by
    apply wait_until_timeout
    intro t ht
    simp [presence_of_all_elements, hsteps t ht]
  have hbody : main_try env = Except.ok (save_instructions_to_excel []) := by
    unfold main_try
    rw [hchrome, hdir, hstart, hdest, hurl, hroute, hstepwait]
    simp [url_contains_dir, hcardsb, hexcel, filter_step_texts]
  refine ⟨?_, ?_, ?_⟩ <;>
    simp [main_run, hbody, save_instructions_to_excel, instruction_rows]

/-- Witness for C7: in the environment in which everything succeeds but
no step element ever appears, the run exits 0 with a header-only sheet
and a screenshot. -/
theorem C7_step_timeout_swallowed_witness :
    (main_run envNoSteps).exitCode = 0
      ∧ (main_run envNoSteps).excel
          = some { title := "Driving Instructions"
                   rows := [[Cell.str "Step Number", Cell.str "Instruction Text"]] }
      ∧ (main_run envNoSteps).screenshot = true :=
  C7_step_timeout_swallowed envNoSteps okButton okButton okButton [okButton]
    rfl (by decide) (by decide) (by decide) rfl (by decide) (by decide) rfl

/-- C8: when no route card ever appears within the 30-unit wait, the run
exits 1 and neither the spreadsheet nor the screenshot is written. -/
theorem C8_route_timeout_fatal :
    ∀ (env : Env) (d si di : Element),
      env.chromeFails = false →
      wait_for_any_clickable_element env.directionsTrace directions_locators 25
        = Except.ok d →
      wait_for_any_element env.startTrace start_input_locators 25 = Except.ok si →
      wait_for_any_element env.destTrace destination_input_locators 25 = Except.ok di →
      env.urlHasDir = true →
      (∀ t, t < 30 → ∀ l ∈ route_card_locators, find_elements (env.routeTrace t) l = []) →
      (main_run env).exitCode = 1
        ∧ (main_run env).excel = none
        ∧ (main_run env).screenshot = false := by
  intro env d si di hchrome hdir hstart hdest hurl hroute
  have hroutewait : wait_for_any_elements env.routeTrace route_card_locators 30
      = Except.error ScriptError.timeout :=
    wait_until_timeout _ _ _
      (fun t ht => locate_any_elements_none _ _ (fun l hl => hroute t ht l hl))
  have hbody : main_try env = Except.error ScriptError.timeout := by
    unfold main_try
    rw [hchrome, hdir, hstart, hdest, hurl, hroutewait]
    simp [url_contains_dir]
  refine ⟨?_, ?_, ?_⟩ <;> simp [main_run, hbody]

/-- Witness for C8: in the environment in which no route card ever
appears, the run exits 1 with no spreadsheet and no screenshot. -/
theorem C8_route_timeout_fatal_witness :
    (main_run envNoRoutes).exitCode = 1
      ∧ (main_run envNoRoutes).excel = none
      ∧ (main_run envNoRoutes).screenshot = false :=
  C8_route_timeout_fatal envNoRoutes okButton okButton okButton
    rfl (by decide) (by decide) (by decide) rfl (by decide)

/-- C9: on every exit path of `main`, if a browser session was created it
is quit before the exit code is returned. -/
theorem C9_driver_always_quit :
    ∀ env : Env,
      (main_run env).driverCreated = true → (main_run env).driverQuit = true := by
  intro env h
  simpa [main_run] using h

/-- Witness for C9: the blank environment creates a session (Chrome
starts), and the session is quit. -/
theorem C9_driver_always_quit_witness :
    (main_run envBlank).driverCreated = true ∧ (main_run envBlank).driverQuit = true :=
  ⟨by decide, C9_driver_always_quit envBlank (by decide)⟩

/-- C10: whenever `wait_for_any_elements` returns without raising, its
result is a non-empty list, and consequently the guard in `main` that
raises the no-routes message is unreachable. -/
theorem C10_route_guard_unreachable :
    (∀ (trace : Trace) (locators : List Locator) (timeout : Nat) (es : List Element),
        wait_for_any_elements trace locators timeout = Except.ok es → es ≠ [])
    ∧ (∀ env : Env,
        main_try env ≠ Except.error (ScriptError.other routes_not_found_msg)) := by
  constructor
  · exact fun trace locators timeout es h =>
      wait_for_any_elements_ok_ne_nil trace locators timeout es h
  · intro env
    unfold main_try
    cases hc : env.chromeFails with
    | true => simp
    | false =>
      simp only [Bool.false_eq_true, if_false]
      cases hdir : wait_for_any_clickable_element env.directionsTrace directions_locators 25 with
      | error e =>
        have he := wait_for_any_clickable_element_error _ _ _ _ hdir
        subst he
        simp
      | ok d =>
        cases hstart : wait_for_any_element env.startTrace start_input_locators 25 with
        | error e =>
          have he := wait_for_any_element_error _ _ _ _ hstart
          subst he
          simp
        | ok si =>
          cases hdest : wait_for_any_element env.destTrace destination_input_locators 25 with
          | error e =>
            have he := wait_for_any_element_error _ _ _ _ hdest
            subst he
            simp
          | ok di =>
            cases hurl : url_contains_dir env.urlHasDir with
            | error e =>
              have he := url_contains_dir_error _ _ hurl
              subst he
              simp
            | ok u =>
              cases hroute : wait_for_any_elements env.routeTrace route_card_locators 30 with
              | error e =>
                have he := wait_for_any_elements_error _ _ _ _ hroute
                subst he
                simp
              | ok route_cards =>
                have hcardsb : route_cards.isEmpty = false :=
                  isEmpty_false_of_ne_nil
                    (wait_for_any_elements_ok_ne_nil _ _ _ _ hroute)
                cases hex : env.excelSaveFails with
                | true =>
                  simp [hcardsb, hex, routes_not_found_msg, excel_save_failed_msg]
                | false => simp [hcardsb, hex]

/-- Witness for C10: a concrete successful `wait_for_any_elements` call,
whose returned list is non-empty. -/
theorem C10_route_guard_unreachable_witness :
    wait_for_any_elements traceAll route_card_locators 30 = Except.ok [okButton]
      ∧ ([okButton] : List Element) ≠ [] :=
  ⟨by decide,
   C10_route_guard_unreachable.1 traceAll route_card_locators 30 [okButton] (by decide)⟩

end MapsScript
